import Mathlib

/-!
Verification of the elicitation lifecycle manager
(livekit-voice-agent: schemas/elicitation.py, elicitation_manager.py,
elicitation_response_handler.py, elicitation_cleanup.py).

The Redis-backed state store is embedded as an explicit association list
keyed by elicitation id, the per-session queues as association lists of
redis lists (head = most recently LPUSHed element).  Wall-clock datetimes
are embedded as natural-number second counts; each operation that reads
the clock takes `now : Nat` explicitly.  The fallible external MCP
`confirm_payment` call is embedded as an oracle argument enumerating the
reply shapes the handler distinguishes.
-/

namespace Elicitation

/-! ### schemas/elicitation.py -/

/-- ElicitationType (schemas/elicitation.py). -/
inductive ElicitationType where
  | otp
  | confirmation
  | biometric
  | form
  | supervisor_approval
deriving DecidableEq

/-- ElicitationStatus: lifecycle states (schemas/elicitation.py). -/
inductive ElicitationStatus where
  | created
  | pending
  | processing
  | completed
  | expired
  | failed
  | cancelled
deriving DecidableEq

/-- FieldValidation (schemas/elicitation.py).  `min_value`/`max_value` are
float-typed in the source but are never set anywhere in this repository;
they are carried as integer bounds here. -/
structure FieldValidation where
  required : Bool := true
  min_length : Option Nat := none
  max_length : Option Nat := none
  pattern : Option String := none
  min_value : Option Int := none
  max_value : Option Int := none
deriving DecidableEq

/-- ElicitationField (schemas/elicitation.py).  `field_type` is a string
literal in the source ("text" | "number" | "otp" | "boolean" | "select" |
"biometric"). -/
structure ElicitationField where
  name : String
  label : String
  field_type : String
  validation : FieldValidation := {}
  placeholder : Option String := none
  help_text : Option String := none
  options : Option (List String) := none
deriving DecidableEq

/-- PlatformRequirements (schemas/elicitation.py): per-platform boolean
flag maps. -/
structure PlatformRequirements where
  web : List (String × Bool) := []
  mobile : List (String × Bool) := []
deriving DecidableEq

/-- ElicitationContext (schemas/elicitation.py).  `additional_info` is an
opaque display-only `Dict[str, Any]`, never read by the lifecycle code,
and is not carried in the embedding. -/
structure ElicitationContext where
  amount : String
  payee : String
  account : String
  description : Option String := none
deriving DecidableEq

/-- ElicitationSchema (schemas/elicitation.py).  `ui_hints` is an opaque
display-only map, never read by the lifecycle code, and is not carried. -/
structure ElicitationSchema where
  elicitation_id : String
  elicitation_type : ElicitationType
  fields : List ElicitationField
  context : ElicitationContext
  platform_requirements : PlatformRequirements := {}
  timeout_seconds : Nat := 300
deriving DecidableEq

/-- create_otp_elicitation (schemas/elicitation.py). -/
def createOtpElicitation (elicitation_id : String) (context : ElicitationContext) :
    ElicitationSchema :=
  { elicitation_id := elicitation_id
    elicitation_type := ElicitationType.otp
    fields := [
      { name := "otp_code"
        label := "Enter OTP"
        field_type := "otp"
        validation := { required := true, min_length := some 6, max_length := some 6,
                        pattern := some "^\\d{6}$" }
        placeholder := some "000000"
        help_text := some "Enter the 6-digit OTP sent to your registered mobile number" }]
    context := context
    platform_requirements := { web := [("biometric_required", false)],
                               mobile := [("biometric_required", true)] } }

/-- create_confirmation_elicitation (schemas/elicitation.py). -/
def createConfirmationElicitation (elicitation_id : String)
    (context : ElicitationContext) : ElicitationSchema :=
  { elicitation_id := elicitation_id
    elicitation_type := ElicitationType.confirmation
    fields := [
      { name := "confirmed"
        label := "Confirm Payment"
        field_type := "boolean"
        validation := { required := true }
        help_text := some "Please confirm that you want to proceed with this payment" }]
    context := context
    platform_requirements := { web := [("biometric_required", false)],
                               mobile := [("biometric_required", true)] } }

/-- create_supervisor_approval_elicitation (schemas/elicitation.py); note
the explicit `timeout_seconds := 600` (10 minutes for supervisor approval). -/
def createSupervisorApprovalElicitation (elicitation_id : String)
    (context : ElicitationContext) : ElicitationSchema :=
  { elicitation_id := elicitation_id
    elicitation_type := ElicitationType.supervisor_approval
    fields := [
      { name := "supervisor_id"
        label := "Supervisor ID"
        field_type := "text"
        validation := { required := true }
        help_text := some "Enter your supervisor's employee ID" },
      { name := "approval_code"
        label := "Approval Code"
        field_type := "text"
        validation := { required := true, min_length := some 8, max_length := some 20 }
        help_text := some "Enter the approval code provided by your supervisor" }]
    context := context
    platform_requirements := { web := [("biometric_required", false)],
                               mobile := [("biometric_required", false)] }
    timeout_seconds := 600 }

/-- The suspended tool arguments are an opaque `Dict[str, Any]` in the
source; the response handler reads exactly two keys from it
(`user_id` and `payment_session_id`), which are the fields carried here. -/
structure SuspendedArgs where
  user_id : Option String := none
  payment_session_id : Option String := none
deriving DecidableEq

/-- ElicitationState (schemas/elicitation.py): the mutable record stored
in Redis, one per pending confirmation.  Datetimes are second counts. -/
structure ElicitationState where
  elicitation_id : String
  tool_call_id : String
  mcp_endpoint : String
  user_id : String
  session_id : String
  room_name : String
  status : ElicitationStatus
  schema : ElicitationSchema
  created_at : Nat
  expires_at : Nat
  suspended_tool_arguments : SuspendedArgs := {}
deriving DecidableEq

/-! ### The Redis store

`elicitation:{id}` hashes are embedded as an association list keyed by the
elicitation id; `elicitation_queue:{session_id}` lists as an association
list keyed by the session id.  The TTL that `EXPIRE` sets on each key is
carried alongside the value (time-based reaping itself is the storage
engine's job and is outside the operations under verification). -/

/-- An `elicitation:{id}` hash together with the TTL set on its key. -/
structure StoredElicitation where
  state : ElicitationState
  ttl_seconds : Nat
deriving DecidableEq

/-- An `elicitation_queue:{session_id}` redis list (head = most recently
LPUSHed element) together with the TTL set on its key. -/
structure QueueEntry where
  items : List String
  ttl_seconds : Nat
deriving DecidableEq

/-- The visible Redis keyspace used by the elicitation manager. -/
structure Store where
  elicitations : List (String × StoredElicitation) := []
  queues : List (String × QueueEntry) := []
deriving DecidableEq

/-- Lookup in an association list (first binding wins, as a Redis key is
unique). -/
def assocGet {α : Type} (l : List (String × α)) (k : String) : Option α :=
  match l with
  | [] => none
  | (k', v) :: rest => if k' = k then some v else assocGet rest k

/-- Overwrite or insert a binding in an association list. -/
def assocSet {α : Type} (l : List (String × α)) (k : String) (v : α) :
    List (String × α) :=
  match l with
  | [] => [(k, v)]
  | (k', v') :: rest =>
      if k' = k then (k, v) :: rest else (k', v') :: assocSet rest k v

/-! ### elicitation_manager.py -/

/-- `ElicitationManager.default_timeout_seconds`: the
ELICITATION_TIMEOUT_SECONDS environment default, "300" (5 minutes). -/
def defaultTimeoutSeconds : Nat := 300

/-- `timeout_seconds or self.default_timeout_seconds` in
create_elicitation: Python `or` replaces both `None` and the falsy `0`
with the manager default. -/
def resolveTimeout (timeout_seconds : Option Nat) : Nat :=
  match timeout_seconds with
  | none => defaultTimeoutSeconds
  | some t => if t = 0 then defaultTimeoutSeconds else t

/-- `_store_elicitation`: HSET the record hash and EXPIRE the key at
`ttl_seconds + 60` (extra 60s buffer). -/
def storeElicitation (state : ElicitationState) (ttl_seconds : Nat) (s : Store) :
    Store :=
  let stored : StoredElicitation := { state := state, ttl_seconds := ttl_seconds + 60 }
  { s with elicitations := assocSet s.elicitations state.elicitation_id stored }

/-- `_add_to_queue`: LPUSH the id onto the session's list and reset the
list key's TTL to 3600s. -/
def addToQueue (session_id elicitation_id : String) (s : Store) : Store :=
  let items :=
    match assocGet s.queues session_id with
    | none => []
    | some q => q.items
  let entry : QueueEntry := { items := elicitation_id :: items, ttl_seconds := 3600 }
  { s with queues := assocSet s.queues session_id entry }

/-- `create_elicitation`: build the record with status `pending`,
`created_at = now`, `expires_at = now + timeout` where
`timeout = timeout_seconds or default`, store it with TTL `timeout + 60`,
and enqueue its id for the session. -/
def createElicitation (tool_call_id mcp_endpoint user_id session_id room_name : String)
    (schema : ElicitationSchema) (suspended_tool_arguments : SuspendedArgs)
    (timeout_seconds : Option Nat) (now : Nat) (s : Store) :
    ElicitationState × Store :=
  let timeout := resolveTimeout timeout_seconds
  let state : ElicitationState :=
    { elicitation_id := schema.elicitation_id
      tool_call_id := tool_call_id
      mcp_endpoint := mcp_endpoint
      user_id := user_id
      session_id := session_id
      room_name := room_name
      status := ElicitationStatus.pending
      schema := schema
      created_at := now
      expires_at := now + timeout
      suspended_tool_arguments := suspended_tool_arguments }
  let s₁ := storeElicitation state timeout s
  let s₂ := addToQueue session_id schema.elicitation_id s₁
  (state, s₂)

/-- `get_elicitation`: HGETALL and deserialize; `none` when the key is
absent. -/
def getElicitation (elicitation_id : String) (s : Store) :
    Option ElicitationState :=
  (assocGet s.elicitations elicitation_id).map (·.state)

/-- `update_elicitation_status`: returns `false` (without mutating) when
the key does not exist, otherwise HSETs the status field.  It performs no
transition-legality check of its own. -/
def updateElicitationStatus (elicitation_id : String) (status : ElicitationStatus)
    (s : Store) : Bool × Store :=
  match assocGet s.elicitations elicitation_id with
  | none => (false, s)
  | some stored =>
      let stored' : StoredElicitation :=
        { stored with state := { stored.state with status := status } }
      (true, { s with elicitations := assocSet s.elicitations elicitation_id stored' })

/-- `get_next_in_queue`: LINDEX -1, i.e. the tail of the head-push list —
the oldest entry — without removing it. -/
def getNextInQueue (session_id : String) (s : Store) : Option String :=
  match assocGet s.queues session_id with
  | none => none
  | some q => q.items.getLast?

/-- `remove_from_queue`: LREM count 0, i.e. remove all occurrences of the
id; returns whether anything was removed. -/
def removeFromQueue (session_id elicitation_id : String) (s : Store) :
    Bool × Store :=
  match assocGet s.queues session_id with
  | none => (false, s)
  | some q =>
      let remaining := q.items.filter (fun x => x != elicitation_id)
      (decide (remaining.length < q.items.length),
       { s with queues := assocSet s.queues session_id { q with items := remaining } })

/-- `get_queue_length`: LLEN (0 for an absent key). -/
def getQueueLength (session_id : String) (s : Store) : Nat :=
  match assocGet s.queues session_id with
  | none => 0
  | some q => q.items.length

/-- Observation helper: the contents of a session's queue list in a given
queue keyspace (empty for an absent key). -/
def queueItems (session_id : String) (queues : List (String × QueueEntry)) :
    List String :=
  match assocGet queues session_id with
  | none => []
  | some q => q.items

/-- `find_expired_elicitations`: scan every `elicitation:*` hash and
collect the `elicitation_id` field of those whose status is `pending` and
whose `expires_at` has passed (`now > expires_at`, strict).  A pure read:
the store is not changed (the embedding returns only the id list). -/
def findExpiredElicitations (now : Nat) (s : Store) : List String :=
  s.elicitations.filterMap (fun e =>
    if e.2.state.status = ElicitationStatus.pending ∧ e.2.state.expires_at < now then
      some e.2.state.elicitation_id
    else
      none)

/-- `mark_expired`: fetch the record (`false` when absent), set its status
to `expired` unconditionally — whatever its current status — and remove
it from its session's queue. -/
def markExpired (elicitation_id : String) (s : Store) : Bool × Store :=
  match getElicitation elicitation_id s with
  | none => (false, s)
  | some state =>
      let upd := updateElicitationStatus elicitation_id ElicitationStatus.expired s
      if upd.1 then
        (true, (removeFromQueue state.session_id elicitation_id upd.2).2)
      else
        (false, upd.2)

/-- `cancel_elicitation`: fetch the record (`false` when absent), set its
status to `cancelled` unconditionally, and remove it from its session's
queue. -/
def cancelElicitation (elicitation_id : String) (s : Store) : Bool × Store :=
  match getElicitation elicitation_id s with
  | none => (false, s)
  | some state =>
      let upd := updateElicitationStatus elicitation_id ElicitationStatus.cancelled s
      if upd.1 then
        (true, (removeFromQueue state.session_id elicitation_id upd.2).2)
      else
        (false, upd.2)

/-! ### elicitation_response_handler.py -/

/-- The keys the handler reads from the `user_input` map:
`user_input.get("otp_code")` and `user_input.get("confirmed")`. -/
structure UserInput where
  otp_code : Option String := none
  confirmed : Option Bool := none
deriving DecidableEq

/-- Python truthiness of an optional string (`if otp_code:` /
`if not user_id:`): absent and empty are falsy. -/
def pyTruthyStr (o : Option String) : Bool :=
  match o with
  | none => false
  | some v => !(v == "")

/-- The reply shapes of the external MCP `confirm_payment` call that
`_call_confirm_payment` distinguishes: a non-error reply whose first
content text parses as JSON, one whose text does not parse, a non-error
reply with no content list (raw-result fallback), and an error reply with
an optional extracted error text. -/
inductive McpReply where
  | okParsed
  | okUnparsable
  | okNoContent
  | err (msg : Option String)
deriving DecidableEq

/-- One invocation of the downstream resume operation
(`mcp_client._call_mcp_tool "confirm_payment"`) with the arguments the
handler passes. -/
structure ResumeInvocation where
  payment_session_id : String
  otp_code : String
  user_id : String
deriving DecidableEq

/-- The dict `_call_confirm_payment` returns (its `status` field is
`"completed"` or `"failed"`), together with the list of downstream resume
invocations the call performed. -/
structure ConfirmOutcome where
  completed : Bool
  error : Option String := none
  invocations : List ResumeInvocation := []
deriving DecidableEq

/-- `_call_confirm_payment`: require a truthy `user_id` in the suspended
arguments; take the submitted `otp_code` if truthy, else the dummy
`"000000"` when `confirmed is True`, else fail without calling MCP; then
call the MCP `confirm_payment` tool and shape its reply. -/
def callConfirmPayment (elicitation_id : String) (user_input : UserInput)
    (suspended_arguments : SuspendedArgs) (mcp : McpReply) : ConfirmOutcome :=
  let user_id := suspended_arguments.user_id
  let payment_session_id := suspended_arguments.payment_session_id.getD elicitation_id
  if !(pyTruthyStr user_id) then
    { completed := false, error := some "Missing user context" }
  else
    let runMcp : String → ConfirmOutcome := fun final_otp =>
      let inv : ResumeInvocation :=
        { payment_session_id := payment_session_id
          otp_code := final_otp
          user_id := user_id.getD "" }
      match mcp with
      | McpReply.okParsed => { completed := true, invocations := [inv] }
      | McpReply.okUnparsable =>
          { completed := false
            error := some "Invalid response format from payment service"
            invocations := [inv] }
      | McpReply.okNoContent => { completed := true, invocations := [inv] }
      | McpReply.err msg =>
          { completed := false
            error := some (msg.getD "Payment confirmation failed")
            invocations := [inv] }
    if pyTruthyStr user_input.otp_code then
      runMcp (user_input.otp_code.getD "")
    else if user_input.confirmed = some true then
      runMcp "000000"
    else
      { completed := false, error := some "OTP code or confirmation is required" }

/-- The responses `handle_response` returns: the three error dicts of
steps 1–3, the relayed completed payload of step 6, and the relayed
failure payload of step 7. -/
inductive HrResult where
  | errNotFound
  | errInvalidStatus (status : ElicitationStatus)
  | errExpired
  | completed
  | failed (error : Option String)
deriving DecidableEq

/-- A `handle_response` return value together with the downstream resume
invocations performed during the call. -/
structure HrResponse where
  result : HrResult
  resume_invocations : List ResumeInvocation := []
deriving DecidableEq

/-- `handle_response`: look up the record (step 1), reject a non-pending
status (step 2), expire a stale record via `mark_expired` (step 3), set
the status to `processing` (step 4), call `_call_confirm_payment`
(step 5), and on success mark `completed` and dequeue (step 6), otherwise
mark `failed` leaving the queue alone (step 7). -/
def handleResponse (elicitation_id : String) (user_input : UserInput) (now : Nat)
    (mcp : McpReply) (s : Store) : HrResponse × Store :=
  match getElicitation elicitation_id s with
  | none => ({ result := HrResult.errNotFound }, s)
  | some state =>
      if state.status ≠ ElicitationStatus.pending then
        ({ result := HrResult.errInvalidStatus state.status }, s)
      else if state.expires_at < now then
        ({ result := HrResult.errExpired }, (markExpired elicitation_id s).2)
      else
        let s₁ := (updateElicitationStatus elicitation_id
          ElicitationStatus.processing s).2
        let outcome := callConfirmPayment elicitation_id user_input
          state.suspended_tool_arguments mcp
        if outcome.completed then
          let s₂ := (updateElicitationStatus elicitation_id
            ElicitationStatus.completed s₁).2
          let s₃ := (removeFromQueue state.session_id elicitation_id s₂).2
          ({ result := HrResult.completed, resume_invocations := outcome.invocations },
           s₃)
        else
          let s₂ := (updateElicitationStatus elicitation_id
            ElicitationStatus.failed s₁).2
          ({ result := HrResult.failed outcome.error,
             resume_invocations := outcome.invocations }, s₂)

/-! ### elicitation_cleanup.py -/

/-- One sweep over a batch of ids previously returned by
`find_expired_elicitations`: per id, re-fetch the record — skipping it
only when it no longer exists — and then call `mark_expired` on it.  The
re-fetch checks existence only, not that the status is still `pending`. -/
def cleanupProcessIds (expired_ids : List String) (s : Store) : Store :=
  match expired_ids with
  | [] => s
  | id :: rest =>
      let s' :=
        match getElicitation id s with
        | none => s
        | some _ => (markExpired id s).2
      cleanupProcessIds rest s'

/-- `_cleanup_expired`: one full Sweeper cycle in which no concurrent
mutation happens between `find_expired_elicitations` and the per-id
processing. -/
def cleanupExpired (now : Nat) (s : Store) : Store :=
  cleanupProcessIds (findExpiredElicitations now s) s

/-! ### An interleaving semantics for `handle_response`

`handle_response` performs its store accesses in separate Redis round
trips; two concurrent invocations for the same id may interleave between
the step-2 status check and the step-4 status write.  Each invocation is
split at its store round trips: the read-and-validate prefix (steps 1–3),
the `processing` write (step 4), the resume call (step 5), and the
finalization writes (steps 6/7). -/

/-- The program counter of one in-flight `handle_response` invocation. -/
inductive ThreadPhase where
  | start
  | toProcess (state : ElicitationState)
  | toResume (state : ElicitationState)
  | toFinalize (state : ElicitationState) (outcome : ConfirmOutcome)
  | done (response : HrResponse)
deriving DecidableEq

/-- The per-invocation arguments of `handle_response`. -/
structure ThreadCtx where
  elicitation_id : String
  user_input : UserInput
  now : Nat
  mcp : McpReply
deriving DecidableEq

/-- One atomic slice of `handle_response` against the shared store. -/
def hrStep (c : ThreadCtx) (p : ThreadPhase) (s : Store) : ThreadPhase × Store :=
  match p with
  | ThreadPhase.start =>
      match getElicitation c.elicitation_id s with
      | none => (ThreadPhase.done { result := HrResult.errNotFound }, s)
      | some state =>
          if state.status ≠ ElicitationStatus.pending then
            (ThreadPhase.done { result := HrResult.errInvalidStatus state.status }, s)
          else if state.expires_at < c.now then
            (ThreadPhase.done { result := HrResult.errExpired },
             (markExpired c.elicitation_id s).2)
          else
            (ThreadPhase.toProcess state, s)
  | ThreadPhase.toProcess state =>
      (ThreadPhase.toResume state,
       (updateElicitationStatus c.elicitation_id ElicitationStatus.processing s).2)
  | ThreadPhase.toResume state =>
      (ThreadPhase.toFinalize state
        (callConfirmPayment c.elicitation_id c.user_input
          state.suspended_tool_arguments c.mcp), s)
  | ThreadPhase.toFinalize state outcome =>
      if outcome.completed then
        let s₂ := (updateElicitationStatus c.elicitation_id
          ElicitationStatus.completed s).2
        let s₃ := (removeFromQueue state.session_id c.elicitation_id s₂).2
        (ThreadPhase.done
          { result := HrResult.completed, resume_invocations := outcome.invocations },
         s₃)
      else
        let s₂ := (updateElicitationStatus c.elicitation_id
          ElicitationStatus.failed s).2
        (ThreadPhase.done
          { result := HrResult.failed outcome.error
            resume_invocations := outcome.invocations }, s₂)
  | ThreadPhase.done r => (ThreadPhase.done r, s)

/-- Run `n` slices of one invocation. -/
def hrRunAux (n : Nat) (c : ThreadCtx) (p : ThreadPhase) (s : Store) :
    ThreadPhase × Store :=
  match n with
  | 0 => (p, s)
  | n + 1 =>
      let step := hrStep c p s
      hrRunAux n c step.1 step.2

/-- Interleave two invocations under an explicit schedule (`true` = run
one slice of the first invocation, `false` = of the second). -/
def runSchedule (c₁ c₂ : ThreadCtx) (sched : List Bool)
    (st : ThreadPhase × ThreadPhase × Store) : ThreadPhase × ThreadPhase × Store :=
  match sched with
  | [] => st
  | b :: rest =>
      if b then
        let step := hrStep c₁ st.1 st.2.2
        runSchedule c₁ c₂ rest (step.1, st.2.1, step.2)
      else
        let step := hrStep c₂ st.2.1 st.2.2
        runSchedule c₁ c₂ rest (st.1, step.1, step.2)

/-- The resume invocations an invocation has performed, read off its
final phase. -/
def phaseInvocations (p : ThreadPhase) : List ResumeInvocation :=
  match p with
  | ThreadPhase.done r => r.resume_invocations
  | _ => []

/-! ### Concrete fixtures used by witnesses and counterexamples -/

/-- A masked payment context as the schema helpers receive it. -/
def sampleContext : ElicitationContext :=
  { amount := "1,000.00", payee := "A*** K***", account := "****1234" }

/-- A confirmation-type schema for elicitation id "e1". -/
def sampleSchema : ElicitationSchema :=
  createConfirmationElicitation "e1" sampleContext

/-- Suspended arguments carrying the user context the handler needs. -/
def sampleArgs : SuspendedArgs :=
  { user_id := some "u1", payment_session_id := some "ps1" }

/-- A pending record for "e1" created at t=0 with the default timeout. -/
def sampleState : ElicitationState :=
  { elicitation_id := "e1"
    tool_call_id := "t1"
    mcp_endpoint := "initiate_payment"
    user_id := "u1"
    session_id := "s1"
    room_name := "r1"
    status := ElicitationStatus.pending
    schema := sampleSchema
    created_at := 0
    expires_at := 300
    suspended_tool_arguments := sampleArgs }

/-- A store holding the pending "e1" record and its queue entry. -/
def sampleStore : Store :=
  { elicitations := [("e1", { state := sampleState, ttl_seconds := 360 })]
    queues := [("s1", { items := ["e1"], ttl_seconds := 3600 })] }

/-- The same store after the "e1" record has reached `completed`. -/
def sampleStoreCompleted : Store :=
  { elicitations :=
      [("e1", { state := { sampleState with status := ElicitationStatus.completed }
                ttl_seconds := 360 })]
    queues := [("s1", { items := ["e1"], ttl_seconds := 3600 })] }

/-! ### Association-list lemmas -/

theorem assocGet_assocSet_self {α : Type} (l : List (String × α)) (k : String)
    (v : α) : assocGet (assocSet l k v) k = some v := by
  induction l with
  | nil => simp [assocGet, assocSet]
  | cons e rest ih =>
      by_cases h : e.1 = k
      · simp [assocSet, assocGet, h]
      · simp [assocSet, assocGet, h, ih]

theorem mem_assocSet {α : Type} {l : List (String × α)} {k : String} {v : α}
    {e : String × α} : e ∈ assocSet l k v → e = (k, v) ∨ e ∈ l := by
  induction l with
  | nil => intro h; simpa [assocSet] using h
  | cons e' rest ih =>
      intro h
      by_cases hk : e'.1 = k
      · rw [assocSet] at h
        simp only [hk, if_pos] at h
        rcases List.mem_cons.mp h with h | h
        · exact Or.inl h
        · exact Or.inr (List.mem_cons_of_mem _ h)
      · rw [assocSet] at h
        simp only [hk, if_neg, not_false_iff] at h
        rcases List.mem_cons.mp h with h | h
        · exact Or.inr (h ▸ List.mem_cons_self _ _)
        · rcases ih h with h' | h'
          · exact Or.inl h'
          · exact Or.inr (List.mem_cons_of_mem _ h')

theorem self_mem_assocSet {α : Type} (l : List (String × α)) (k : String)
    (v : α) : (k, v) ∈ assocSet l k v := by
  induction l with
  | nil => simp [assocSet]
  | cons e rest ih =>
      by_cases h : e.1 = k
      · simp [assocSet, h]
      · simp only [assocSet, h, if_neg, not_false_iff]
        exact List.mem_cons_of_mem _ ih

/-! ### Frame lemmas for the store operations -/

theorem queues_updateElicitationStatus (elicitation_id : String)
    (status : ElicitationStatus) (s : Store) :
    ((updateElicitationStatus elicitation_id status s).2).queues = s.queues := by
  rw [updateElicitationStatus]
  cases assocGet s.elicitations elicitation_id <;> rfl

theorem elicitations_removeFromQueue (session_id elicitation_id : String)
    (s : Store) :
    ((removeFromQueue session_id elicitation_id s).2).elicitations
      = s.elicitations := by
  rw [removeFromQueue]
  cases assocGet s.queues session_id <;> rfl

theorem getElicitation_updateElicitationStatus_self (elicitation_id : String)
    (status : ElicitationStatus) (s : Store) (stored : StoredElicitation)
    (h : assocGet s.elicitations elicitation_id = some stored) :
    getElicitation elicitation_id (updateElicitationStatus elicitation_id status s).2
      = some { stored.state with status := status } := by
  rw [updateElicitationStatus, h]
  simp [getElicitation, assocGet_assocSet_self]

theorem updateElicitationStatus_of_get (elicitation_id : String)
    (status : ElicitationStatus) (s : Store) {stored : StoredElicitation}
    (h : assocGet s.elicitations elicitation_id = some stored) :
    (updateElicitationStatus elicitation_id status s).1 = true ∧
    ((updateElicitationStatus elicitation_id status s).2).elicitations
      = assocSet s.elicitations elicitation_id
          { stored with state := { stored.state with status := status } } := by
  rw [updateElicitationStatus, h]
  exact ⟨rfl, rfl⟩

theorem queueItems_removeFromQueue (session_id elicitation_id : String)
    (s : Store) :
    queueItems session_id ((removeFromQueue session_id elicitation_id s).2).queues
      = (queueItems session_id s.queues).filter (fun x => x != elicitation_id) := by
  rw [removeFromQueue, queueItems]
  cases h : assocGet s.queues session_id with
  | none => simp [queueItems, h]
  | some q => simp [queueItems, h, assocGet_assocSet_self]

theorem getElicitation_eq_some {elicitation_id : String} {s : Store}
    {st : ElicitationState} (h : getElicitation elicitation_id s = some st) :
    ∃ stored : StoredElicitation,
      assocGet s.elicitations elicitation_id = some stored ∧ stored.state = st := by
  rw [getElicitation] at h
  exact Option.map_eq_some'.mp h

theorem getElicitation_after_double_update (elicitation_id : String)
    (st₁ st₂ : ElicitationStatus) (s : Store) {stored : StoredElicitation}
    (h : assocGet s.elicitations elicitation_id = some stored) :
    getElicitation elicitation_id
      (updateElicitationStatus elicitation_id st₂
        (updateElicitationStatus elicitation_id st₁ s).2).2
      = some { stored.state with status := st₂ } := by
  have h1 := (updateElicitationStatus_of_get elicitation_id st₁ s h).2
  have h2 : assocGet ((updateElicitationStatus elicitation_id st₁ s).2).elicitations
      elicitation_id = some { stored with state := { stored.state with status := st₁ } } := by
    rw [h1]
    exact assocGet_assocSet_self _ _ _
  exact getElicitation_updateElicitationStatus_self elicitation_id st₂ _
    { stored with state := { stored.state with status := st₁ } } h2

theorem queues_after_double_update (elicitation_id : String)
    (st₁ st₂ : ElicitationStatus) (s : Store) :
    ((updateElicitationStatus elicitation_id st₂
        (updateElicitationStatus elicitation_id st₁ s).2).2).queues = s.queues := by
  rw [queues_updateElicitationStatus, queues_updateElicitationStatus]

/-! ### Characterization of the `handle_response` control paths -/

theorem handleResponse_none (elicitation_id : String) (u : UserInput) (now : Nat)
    (mcp : McpReply) (s : Store)
    (h : getElicitation elicitation_id s = none) :
    handleResponse elicitation_id u now mcp s
      = ({ result := HrResult.errNotFound }, s) := by
  unfold handleResponse
  rw [h]

theorem handleResponse_not_pending (elicitation_id : String) (u : UserInput)
    (now : Nat) (mcp : McpReply) (s : Store) {st : ElicitationState}
    (h : getElicitation elicitation_id s = some st)
    (hst : st.status ≠ ElicitationStatus.pending) :
    handleResponse elicitation_id u now mcp s
      = ({ result := HrResult.errInvalidStatus st.status }, s) := by
  unfold handleResponse
  rw [h]
  simp [hst]

theorem handleResponse_expired (elicitation_id : String) (u : UserInput)
    (now : Nat) (mcp : McpReply) (s : Store) {stored : StoredElicitation}
    (h : assocGet s.elicitations elicitation_id = some stored)
    (h2 : stored.state.status = ElicitationStatus.pending)
    (h3 : stored.state.expires_at < now) :
    handleResponse elicitation_id u now mcp s
      = ({ result := HrResult.errExpired }, (markExpired elicitation_id s).2) := by
  have hg : getElicitation elicitation_id s = some stored.state := by
    rw [getElicitation, h]; rfl
  unfold handleResponse
  rw [hg]
  simp [h2, h3]

theorem handleResponse_resume (elicitation_id : String) (u : UserInput)
    (now : Nat) (mcp : McpReply) (s : Store) {stored : StoredElicitation}
    (h : assocGet s.elicitations elicitation_id = some stored)
    (h2 : stored.state.status = ElicitationStatus.pending)
    (h3 : ¬ stored.state.expires_at < now) :
    handleResponse elicitation_id u now mcp s =
      (let outcome := callConfirmPayment elicitation_id u
         stored.state.suspended_tool_arguments mcp
       if outcome.completed then
         ({ result := HrResult.completed, resume_invocations := outcome.invocations },
          (removeFromQueue stored.state.session_id elicitation_id
            (updateElicitationStatus elicitation_id ElicitationStatus.completed
              (updateElicitationStatus elicitation_id
                ElicitationStatus.processing s).2).2).2)
       else
         ({ result := HrResult.failed outcome.error,
            resume_invocations := outcome.invocations },
          (updateElicitationStatus elicitation_id ElicitationStatus.failed
            (updateElicitationStatus elicitation_id
              ElicitationStatus.processing s).2).2)) := by
  have hg : getElicitation elicitation_id s = some stored.state := by
    rw [getElicitation, h]; rfl
  unfold handleResponse
  rw [hg]
  simp [h2, h3]

theorem getElicitation_removeFromQueue (elicitation_id session_id eid : String)
    (s : Store) :
    getElicitation elicitation_id (removeFromQueue session_id eid s).2
      = getElicitation elicitation_id s := by
  rw [getElicitation, getElicitation, elicitations_removeFromQueue]

/-! ### At-most-one downstream invocation per call -/

theorem callConfirmPayment_invocations_length (elicitation_id : String)
    (u : UserInput) (args : SuspendedArgs) (mcp : McpReply) :
    (callConfirmPayment elicitation_id u args mcp).invocations.length ≤ 1 := by
  unfold callConfirmPayment
  by_cases h1 : pyTruthyStr args.user_id
  · by_cases h2 : pyTruthyStr u.otp_code
    · cases mcp <;> simp [h1, h2]
    · by_cases h3 : u.confirmed = some true
      · cases mcp <;> simp [h1, h2, h3]
      · simp [h1, h2, h3]
  · simp [h1]

theorem handleResponse_invocations_length (elicitation_id : String)
    (u : UserInput) (now : Nat) (mcp : McpReply) (s : Store) :
    (handleResponse elicitation_id u now mcp s).1.resume_invocations.length ≤ 1 := by
  cases hg : getElicitation elicitation_id s with
  | none => rw [handleResponse_none elicitation_id u now mcp s hg]; simp
  | some st =>
      by_cases h2 : st.status = ElicitationStatus.pending
      · obtain ⟨stored, hst, hse⟩ := getElicitation_eq_some hg
        subst hse
        by_cases h3 : stored.state.expires_at < now
        · rw [handleResponse_expired elicitation_id u now mcp s hst h2 h3]; simp
        · rw [handleResponse_resume elicitation_id u now mcp s hst h2 h3]
          cases h4 : (callConfirmPayment elicitation_id u
              stored.state.suspended_tool_arguments mcp).completed
          · simp [h4, callConfirmPayment_invocations_length]
          · simp [h4, callConfirmPayment_invocations_length]
      · rw [handleResponse_not_pending elicitation_id u now mcp s hg h2]; simp

theorem handleResponse_invoked_final_status (elicitation_id : String)
    (u : UserInput) (now : Nat) (mcp : McpReply) (s : Store)
    (h : (handleResponse elicitation_id u now mcp s).1.resume_invocations ≠ []) :
    ∃ st : ElicitationState,
      getElicitation elicitation_id (handleResponse elicitation_id u now mcp s).2
        = some st ∧ st.status ≠ ElicitationStatus.pending := by
  cases hg : getElicitation elicitation_id s with
  | none =>
      rw [handleResponse_none elicitation_id u now mcp s hg] at h
      simp at h
  | some st =>
      by_cases h2 : st.status = ElicitationStatus.pending
      · obtain ⟨stored, hst, hse⟩ := getElicitation_eq_some hg
        subst hse
        by_cases h3 : stored.state.expires_at < now
        · rw [handleResponse_expired elicitation_id u now mcp s hst h2 h3] at h
          simp at h
        · rw [handleResponse_resume elicitation_id u now mcp s hst h2 h3]
          cases h4 : (callConfirmPayment elicitation_id u
              stored.state.suspended_tool_arguments mcp).completed
          · refine ⟨{ stored.state with status := ElicitationStatus.failed }, ?_, by simp⟩
            simp only [h4]
            simp [getElicitation_after_double_update elicitation_id
              ElicitationStatus.processing ElicitationStatus.failed s hst]
          · refine ⟨{ stored.state with status := ElicitationStatus.completed }, ?_, by simp⟩
            simp only [h4]
            simp [getElicitation_removeFromQueue,
              getElicitation_after_double_update elicitation_id
                ElicitationStatus.processing ElicitationStatus.completed s hst]
      · rw [handleResponse_not_pending elicitation_id u now mcp s hg h2] at h
        simp at h

/-- Model validation: running the four atomic slices of one invocation
without interference from any other thread computes exactly
`handleResponse`. -/
theorem hrRunAux_four_eq_handleResponse (c : ThreadCtx) (s : Store) :
    hrRunAux 4 c ThreadPhase.start s =
      (ThreadPhase.done (handleResponse c.elicitation_id c.user_input c.now c.mcp s).1,
       (handleResponse c.elicitation_id c.user_input c.now c.mcp s).2) := by
  cases hget : getElicitation c.elicitation_id s with
  | none =>
      rw [handleResponse_none _ _ _ _ _ hget]
      simp [hrRunAux, hrStep, hget]
  | some st =>
      by_cases h2 : st.status = ElicitationStatus.pending
      · obtain ⟨stored, hst, hse⟩ := getElicitation_eq_some hget
        subst hse
        by_cases h3 : stored.state.expires_at < c.now
        · rw [handleResponse_expired _ _ _ _ _ hst h2 h3]
          simp [hrRunAux, hrStep, hget, h2, h3]
        · rw [handleResponse_resume _ _ _ _ _ hst h2 h3]
          simp only [hrRunAux, hrStep, hget]
          simp only [h2, ne_eq, not_true_eq_false, if_false, h3, ite_false]
          cases hc : (callConfirmPayment c.elicitation_id c.user_input
              stored.state.suspended_tool_arguments c.mcp).completed <;> simp [hc]
      · rw [handleResponse_not_pending _ _ _ _ _ hget h2]
        simp [hrRunAux, hrStep, hget, h2]

/-! ### Further helper lemmas -/

theorem mem_findExpired_iff (now : Nat) (s : Store) (id : String) :
    id ∈ findExpiredElicitations now s ↔
      ∃ e ∈ s.elicitations,
        e.2.state.status = ElicitationStatus.pending ∧
        e.2.state.expires_at < now ∧
        e.2.state.elicitation_id = id := by
  unfold findExpiredElicitations
  rw [List.mem_filterMap]
  constructor
  · rintro ⟨e, he, hf⟩
    by_cases hc : e.2.state.status = ElicitationStatus.pending ∧
        e.2.state.expires_at < now
    · rw [if_pos hc] at hf
      exact ⟨e, he, hc.1, hc.2, Option.some.inj hf⟩
    · rw [if_neg hc] at hf
      cases hf
  · rintro ⟨e, he, hp, hlt, hid⟩
    exact ⟨e, he, by rw [if_pos ⟨hp, hlt⟩, hid]⟩

theorem createElicitation_elicitations (tool_call_id mcp_endpoint user_id
    session_id room_name : String) (schema : ElicitationSchema)
    (args : SuspendedArgs) (t : Option Nat) (now : Nat) (s : Store) :
    ((createElicitation tool_call_id mcp_endpoint user_id session_id room_name
        schema args t now s).2).elicitations
      = assocSet s.elicitations schema.elicitation_id
          { state := (createElicitation tool_call_id mcp_endpoint user_id
              session_id room_name schema args t now s).1
            ttl_seconds := resolveTimeout t + 60 } := rfl

theorem queueItems_addToQueue (session_id x : String) (s : Store) :
    queueItems session_id ((addToQueue session_id x s).queues)
      = x :: queueItems session_id s.queues := by
  rw [addToQueue, queueItems, queueItems]
  cases h : assocGet s.queues session_id <;> simp [h, assocGet_assocSet_self]

theorem getNextInQueue_eq (session_id : String) (s : Store) :
    getNextInQueue session_id s = (queueItems session_id s.queues).getLast? := by
  rw [getNextInQueue, queueItems]
  cases assocGet s.queues session_id <;> simp

theorem getQueueLength_eq (session_id : String) (s : Store) :
    getQueueLength session_id s = (queueItems session_id s.queues).length := by
  rw [getQueueLength, queueItems]
  cases assocGet s.queues session_id <;> simp

/-! ### The claims -/

/-- C1: the claim says a Sweeper cycle transitions a record to `expired`
only if the re-fetch it performs still sees status `pending`, so that a
record concurrently moved to a terminal state between `find_expired` and
the re-fetch is left unchanged.  The code violates this: the sweep's
re-fetch checks existence only, and `mark_expired` overwrites the status
unconditionally.  Concretely, "e1" is collected by `find_expired` while
pending and past expiry; after it is concurrently moved to `completed`,
processing the collected batch still moves it out of the terminal
`completed` state into `expired`. -/
theorem c1_sweep_expires_concurrently_completed_record :
    findExpiredElicitations 301 sampleStore = ["e1"] ∧
    getElicitation "e1" (cleanupProcessIds ["e1"] sampleStoreCompleted)
      = some { sampleState with status := ElicitationStatus.expired } := by
  constructor
  · rfl
  · rfl

/-- C2 (counterexample): two interleaved `handle_response` invocations for
the same elicitation id can both pass the step-2 status check before
either performs the step-4 `processing` write, so both reach step 5 and
invoke the downstream `confirm_payment` resume operation — refuting the
claimed at-most-once property under concurrent execution. -/
theorem c2_interleaving_invokes_resume_twice :
    (phaseInvocations (runSchedule
        { elicitation_id := "e1", user_input := { confirmed := some true },
          now := 10, mcp := McpReply.okParsed }
        { elicitation_id := "e1", user_input := { confirmed := some true },
          now := 10, mcp := McpReply.okParsed }
        [true, false, true, true, true, false, false, false]
        (ThreadPhase.start, ThreadPhase.start, sampleStore)).1).length = 1 ∧
    (phaseInvocations (runSchedule
        { elicitation_id := "e1", user_input := { confirmed := some true },
          now := 10, mcp := McpReply.okParsed }
        { elicitation_id := "e1", user_input := { confirmed := some true },
          now := 10, mcp := McpReply.okParsed }
        [true, false, true, true, true, false, false, false]
        (ThreadPhase.start, ThreadPhase.start, sampleStore)).2.1).length = 1 := by
  constructor
  · rfl
  · rfl

/-- C2 (amended): when the two `handle_response` invocations for the same
elicitation id do not interleave — the second starts from the store the
first left behind — at most one of them invokes the downstream resume
operation; a first invocation that resumed leaves the record `completed`
or `failed`, so the second returns the invalid-status error without
resuming. -/
theorem c2_sequential_at_most_one_resume (elicitation_id : String)
    (u₁ u₂ : UserInput) (now₁ now₂ : Nat) (m₁ m₂ : McpReply) (s : Store) :
    (handleResponse elicitation_id u₁ now₁ m₁ s).1.resume_invocations.length +
      (handleResponse elicitation_id u₂ now₂ m₂
        (handleResponse elicitation_id u₁ now₁ m₁ s).2).1.resume_invocations.length
      ≤ 1 := by
  by_cases h : (handleResponse elicitation_id u₁ now₁ m₁ s).1.resume_invocations = []
  · rw [h]
    simpa using handleResponse_invocations_length elicitation_id u₂ now₂ m₂
      (handleResponse elicitation_id u₁ now₁ m₁ s).2
  · obtain ⟨st, hget, hst⟩ :=
      handleResponse_invoked_final_status elicitation_id u₁ now₁ m₁ s h
    rw [handleResponse_not_pending elicitation_id u₂ now₂ m₂ _ hget hst]
    simpa using handleResponse_invocations_length elicitation_id u₁ now₁ m₁ s

/-- C3 (counterexample): a supervisor-approval schema carries
`timeout_seconds = 600`, but `create_elicitation` called without an
explicit timeout argument computes `expires_at = created_at + 300` from
the manager default — the schema's own timeout value is not consulted. -/
theorem c3_supervisor_schema_timeout_ignored :
    (createSupervisorApprovalElicitation "e2" sampleContext).timeout_seconds = 600 ∧
    (createElicitation "t1" "initiate_payment" "u1" "s1" "r1"
        (createSupervisorApprovalElicitation "e2" sampleContext) sampleArgs
        none 0 {}).1.created_at = 0 ∧
    (createElicitation "t1" "initiate_payment" "u1" "s1" "r1"
        (createSupervisorApprovalElicitation "e2" sampleContext) sampleArgs
        none 0 {}).1.expires_at = 300 ∧
    (createElicitation "t1" "initiate_payment" "u1" "s1" "r1"
        (createSupervisorApprovalElicitation "e2" sampleContext) sampleArgs
        none 0 {}).1.expires_at ≠ 0 + 600 := by
  refine ⟨rfl, rfl, rfl, ?_⟩
  decide

/-- C3 (amended): `create_elicitation` derives the timeout from its
`timeout_seconds` argument alone — `created_at + 300` (the manager
default) when the argument is absent, `created_at + t` for an explicit
non-zero `t`; the schema's `timeout_seconds` (600 for supervisor
approval) takes effect only if a caller passes it explicitly. -/
theorem c3_amended_expiry_from_argument_only (tool_call_id mcp_endpoint
    user_id session_id room_name : String) (schema : ElicitationSchema)
    (args : SuspendedArgs) (now : Nat) (s : Store) :
    (createElicitation tool_call_id mcp_endpoint user_id session_id room_name
        schema args none now s).1.expires_at = now + defaultTimeoutSeconds ∧
    ∀ t : Nat, t ≠ 0 →
      (createElicitation tool_call_id mcp_endpoint user_id session_id room_name
          schema args (some t) now s).1.expires_at = now + t := by
  constructor
  · rfl
  · intro t ht
    simp [createElicitation, resolveTimeout, ht]

/-- Witness for the amended C3 theorem at the supervisor-approval schema. -/
theorem c3_amended_witness :
    (createElicitation "t1" "initiate_payment" "u1" "s1" "r1"
        (createSupervisorApprovalElicitation "e2" sampleContext) sampleArgs
        none 0 {}).1.expires_at = 0 + defaultTimeoutSeconds ∧
    (createElicitation "t1" "initiate_payment" "u1" "s1" "r1"
        (createSupervisorApprovalElicitation "e2" sampleContext) sampleArgs
        (some 600) 0 {}).1.expires_at = 0 + 600 :=
  ⟨(c3_amended_expiry_from_argument_only "t1" "initiate_payment" "u1" "s1" "r1"
      (createSupervisorApprovalElicitation "e2" sampleContext) sampleArgs 0 {}).1,
   (c3_amended_expiry_from_argument_only "t1" "initiate_payment" "u1" "s1" "r1"
      (createSupervisorApprovalElicitation "e2" sampleContext) sampleArgs 0 {}).2
     600 (by decide)⟩

/-- C4: `find_expired_elicitations` returns exactly the ids of records
whose status is `pending` and whose `expires_at` is strictly before `now`
(it is a pure read of the store: it takes the store and returns only an
id list, leaving every stored record and status as it was); and a record
created with `timeout_seconds = 300` into a store holding no record with
its id is reported at `now = created_at + 301` but not at
`now = created_at + 299`. -/
theorem c4_find_expired_exactly_stale_pending (now : Nat) (s : Store)
    (id : String) (tool_call_id mcp_endpoint user_id session_id
    room_name : String) (schema : ElicitationSchema) (args : SuspendedArgs)
    (created_at : Nat) (s₀ : Store)
    (hfresh : ∀ e ∈ s₀.elicitations,
      e.2.state.elicitation_id ≠ schema.elicitation_id) :
    (id ∈ findExpiredElicitations now s ↔
      ∃ e ∈ s.elicitations,
        e.2.state.status = ElicitationStatus.pending ∧
        e.2.state.expires_at < now ∧
        e.2.state.elicitation_id = id) ∧
    ((createElicitation tool_call_id mcp_endpoint user_id session_id room_name
        schema args (some 300) created_at s₀).1.elicitation_id ∈
      findExpiredElicitations (created_at + 301)
        (createElicitation tool_call_id mcp_endpoint user_id session_id
          room_name schema args (some 300) created_at s₀).2) ∧
    ((createElicitation tool_call_id mcp_endpoint user_id session_id room_name
        schema args (some 300) created_at s₀).1.elicitation_id ∉
      findExpiredElicitations (created_at + 299)
        (createElicitation tool_call_id mcp_endpoint user_id session_id
          room_name schema args (some 300) created_at s₀).2) := by
  refine ⟨mem_findExpired_iff now s id, ?_, ?_⟩
  · rw [mem_findExpired_iff]
    refine ⟨(schema.elicitation_id,
      { state := (createElicitation tool_call_id mcp_endpoint user_id
          session_id room_name schema args (some 300) created_at s₀).1
        ttl_seconds := resolveTimeout (some 300) + 60 }), ?_, rfl, ?_, rfl⟩
    · rw [createElicitation_elicitations]
      exact self_mem_assocSet _ _ _
    · show created_at + 300 < created_at + 301
      omega
  · intro hmem
    rw [mem_findExpired_iff] at hmem
    obtain ⟨e, he, hp, hlt, hid⟩ := hmem
    rw [createElicitation_elicitations] at he
    rcases mem_assocSet he with heq | hold
    · subst heq
      have hlt' : created_at + 300 < created_at + 299 := hlt
      omega
    · exact hfresh e hold hid

/-- Witness for C4 with an empty initial store. -/
theorem c4_witness :
    ((createElicitation "t1" "initiate_payment" "u1" "s1" "r1" sampleSchema
        sampleArgs (some 300) 0 {}).1.elicitation_id ∈
      findExpiredElicitations (0 + 301)
        (createElicitation "t1" "initiate_payment" "u1" "s1" "r1" sampleSchema
          sampleArgs (some 300) 0 {}).2) ∧
    ((createElicitation "t1" "initiate_payment" "u1" "s1" "r1" sampleSchema
        sampleArgs (some 300) 0 {}).1.elicitation_id ∉
      findExpiredElicitations (0 + 299)
        (createElicitation "t1" "initiate_payment" "u1" "s1" "r1" sampleSchema
          sampleArgs (some 300) 0 {}).2) := by
  have h := c4_find_expired_exactly_stale_pending 301 {} "e1" "t1"
    "initiate_payment" "u1" "s1" "r1" sampleSchema sampleArgs 0 {}
    (by intro e he; cases he)
  exact ⟨h.2.1, h.2.2⟩

/-- C5: a `handle_response` call for an id with no record returns the
not-found error with the store untouched (no record created or mutated);
a call for a record whose status is not `pending` returns an error
carrying that current status, again with the store untouched.  Neither
path performs a resume invocation. -/
theorem c5_missing_or_non_pending_rejected_without_mutation
    (elicitation_id : String) (u : UserInput) (now : Nat) (mcp : McpReply)
    (s : Store) :
    (getElicitation elicitation_id s = none →
      handleResponse elicitation_id u now mcp s
        = ({ result := HrResult.errNotFound }, s)) ∧
    (∀ st : ElicitationState, getElicitation elicitation_id s = some st →
      st.status ≠ ElicitationStatus.pending →
      handleResponse elicitation_id u now mcp s
        = ({ result := HrResult.errInvalidStatus st.status }, s)) :=
  ⟨fun h => handleResponse_none elicitation_id u now mcp s h,
   fun _ h hst => handleResponse_not_pending elicitation_id u now mcp s h hst⟩

/-- Witness for C5: an id absent from the empty store, and the completed
"e1" record. -/
theorem c5_witness :
    (handleResponse "missing" {} 0 McpReply.okParsed {}
      = ({ result := HrResult.errNotFound }, ({} : Store))) ∧
    (handleResponse "e1" {} 0 McpReply.okParsed sampleStoreCompleted
      = ({ result := HrResult.errInvalidStatus ElicitationStatus.completed },
         sampleStoreCompleted)) := by
  constructor
  · exact (c5_missing_or_non_pending_rejected_without_mutation "missing" {} 0
      McpReply.okParsed {}).1 rfl
  · exact (c5_missing_or_non_pending_rejected_without_mutation "e1" {} 0
      McpReply.okParsed sampleStoreCompleted).2
      { sampleState with status := ElicitationStatus.completed } rfl (by decide)

/-- C6: a `handle_response` call for a pending record whose `expires_at`
is strictly before `now` returns the expiry error without any resume
invocation, and leaves the store exactly as `mark_expired` does — the
same eager-Sweeper path: the record moves to the terminal `expired`
status and its id is removed from its session's queue. -/
theorem c6_stale_pending_expired_on_response (elicitation_id : String)
    (u : UserInput) (now : Nat) (mcp : McpReply) (s : Store)
    (stored : StoredElicitation)
    (h1 : assocGet s.elicitations elicitation_id = some stored)
    (h2 : stored.state.status = ElicitationStatus.pending)
    (h3 : stored.state.expires_at < now) :
    (handleResponse elicitation_id u now mcp s).1
      = { result := HrResult.errExpired } ∧
    (handleResponse elicitation_id u now mcp s).2
      = (markExpired elicitation_id s).2 ∧
    getElicitation elicitation_id (handleResponse elicitation_id u now mcp s).2
      = some { stored.state with status := ElicitationStatus.expired } ∧
    queueItems stored.state.session_id
        ((handleResponse elicitation_id u now mcp s).2).queues
      = (queueItems stored.state.session_id s.queues).filter
          (fun x => x != elicitation_id) := by
  have hr := handleResponse_expired elicitation_id u now mcp s h1 h2 h3
  have hg : getElicitation elicitation_id s = some stored.state := by
    rw [getElicitation, h1]; rfl
  have hup := updateElicitationStatus_of_get elicitation_id
    ElicitationStatus.expired s h1
  have hme : markExpired elicitation_id s
      = (true, (removeFromQueue stored.state.session_id elicitation_id
          (updateElicitationStatus elicitation_id
            ElicitationStatus.expired s).2).2) := by
    unfold markExpired
    rw [hg]
    simp [hup.1]
  refine ⟨by rw [hr], by rw [hr], ?_, ?_⟩
  · rw [hr, hme]
    rw [getElicitation_removeFromQueue]
    exact getElicitation_updateElicitationStatus_self elicitation_id
      ElicitationStatus.expired s stored h1
  · rw [hr, hme]
    rw [queueItems_removeFromQueue]
    rw [queues_updateElicitationStatus]

/-- Witness for C6: the pending "e1" record responded to at t=301. -/
theorem c6_witness :
    (handleResponse "e1" {} 301 McpReply.okParsed sampleStore).1
      = { result := HrResult.errExpired } ∧
    getElicitation "e1" (handleResponse "e1" {} 301 McpReply.okParsed sampleStore).2
      = some { sampleState with status := ElicitationStatus.expired } ∧
    queueItems "s1" ((handleResponse "e1" {} 301 McpReply.okParsed sampleStore).2).queues
      = [] := by
  have h := c6_stale_pending_expired_on_response "e1" {} 301 McpReply.okParsed
    sampleStore { state := sampleState, ttl_seconds := 360 } rfl rfl (by decide)
  refine ⟨h.1, h.2.2.1, ?_⟩
  exact h.2.2.2.trans (by rfl)

/-- C7: once `handle_response` reaches the resume call on a pending and
fresh record, the session queue entry is removed exactly when the resume
operation reports success (the record then reads `completed`); on failure
the record reads `failed` while the queue keyspace is untouched, and the
resume operation is not retried (at most one downstream invocation). -/
theorem c7_dequeue_iff_resume_success (elicitation_id : String) (u : UserInput)
    (now : Nat) (mcp : McpReply) (s : Store) (stored : StoredElicitation)
    (h1 : assocGet s.elicitations elicitation_id = some stored)
    (h2 : stored.state.status = ElicitationStatus.pending)
    (h3 : ¬ stored.state.expires_at < now) :
    (handleResponse elicitation_id u now mcp s).1.resume_invocations
      = (callConfirmPayment elicitation_id u
          stored.state.suspended_tool_arguments mcp).invocations ∧
    (callConfirmPayment elicitation_id u
        stored.state.suspended_tool_arguments mcp).invocations.length ≤ 1 ∧
    ((callConfirmPayment elicitation_id u
        stored.state.suspended_tool_arguments mcp).completed = true →
      (handleResponse elicitation_id u now mcp s).1.result = HrResult.completed ∧
      getElicitation elicitation_id (handleResponse elicitation_id u now mcp s).2
        = some { stored.state with status := ElicitationStatus.completed } ∧
      queueItems stored.state.session_id
          ((handleResponse elicitation_id u now mcp s).2).queues
        = (queueItems stored.state.session_id s.queues).filter
            (fun x => x != elicitation_id)) ∧
    ((callConfirmPayment elicitation_id u
        stored.state.suspended_tool_arguments mcp).completed = false →
      (handleResponse elicitation_id u now mcp s).1.result
        = HrResult.failed (callConfirmPayment elicitation_id u
            stored.state.suspended_tool_arguments mcp).error ∧
      getElicitation elicitation_id (handleResponse elicitation_id u now mcp s).2
        = some { stored.state with status := ElicitationStatus.failed } ∧
      ((handleResponse elicitation_id u now mcp s).2).queues = s.queues) := by
  have hr := handleResponse_resume elicitation_id u now mcp s h1 h2 h3
  refine ⟨?_, callConfirmPayment_invocations_length _ _ _ _, ?_, ?_⟩
  · rw [hr]
    cases hc : (callConfirmPayment elicitation_id u
        stored.state.suspended_tool_arguments mcp).completed <;> simp [hc]
  · intro hc
    rw [hr]
    simp only [hc, if_true]
    refine ⟨trivial, ?_, ?_⟩
    · rw [getElicitation_removeFromQueue]
      exact getElicitation_after_double_update elicitation_id
        ElicitationStatus.processing ElicitationStatus.completed s h1
    · rw [queueItems_removeFromQueue, queues_after_double_update]
  · intro hc
    rw [hr]
    simp only [hc, Bool.false_eq_true, if_false]
    refine ⟨trivial, ?_, ?_⟩
    · exact getElicitation_after_double_update elicitation_id
        ElicitationStatus.processing ElicitationStatus.failed s h1
    · exact queues_after_double_update elicitation_id
        ElicitationStatus.processing ElicitationStatus.failed s

/-- Witness for C7: the pending "e1" record confirmed at t=10 with a
successful downstream reply. -/
theorem c7_witness :
    (callConfirmPayment "e1" { confirmed := some true }
        sampleState.suspended_tool_arguments McpReply.okParsed).completed
      = true ∧
    (handleResponse "e1" { confirmed := some true } 10 McpReply.okParsed
        sampleStore).1.result = HrResult.completed ∧
    getElicitation "e1" (handleResponse "e1" { confirmed := some true } 10
        McpReply.okParsed sampleStore).2
      = some { sampleState with status := ElicitationStatus.completed } ∧
    queueItems "s1" ((handleResponse "e1" { confirmed := some true } 10
        McpReply.okParsed sampleStore).2).queues = [] := by
  have h := (c7_dequeue_iff_resume_success "e1" { confirmed := some true } 10
    McpReply.okParsed sampleStore { state := sampleState, ttl_seconds := 360 }
    rfl rfl (by decide)).2.2.1 rfl
  exact ⟨rfl, h.1, h.2.1, h.2.2.trans (by rfl)⟩

/-- C8: the per-session queue is FIFO by insertion order — after
enqueuing A, B, C for one session (starting from an empty queue), `peek`
returns A without removing it (the queue length is still 3 after peeking,
as `get_next_in_queue` reads LINDEX -1 and never pops); after removing A,
`peek` returns B. -/
theorem c8_queue_fifo_peek (session_id A B C : String) (s : Store)
    (h0 : queueItems session_id s.queues = [])
    (hBA : B ≠ A) (hCA : C ≠ A) :
    getNextInQueue session_id
        (addToQueue session_id C (addToQueue session_id B
          (addToQueue session_id A s)))
      = some A ∧
    getQueueLength session_id
        (addToQueue session_id C (addToQueue session_id B
          (addToQueue session_id A s)))
      = 3 ∧
    getNextInQueue session_id
        (removeFromQueue session_id A
          (addToQueue session_id C (addToQueue session_id B
            (addToQueue session_id A s)))).2
      = some B ∧
    getQueueLength session_id
        (removeFromQueue session_id A
          (addToQueue session_id C (addToQueue session_id B
            (addToQueue session_id A s)))).2
      = 2 := by
  have hq : queueItems session_id
      (addToQueue session_id C (addToQueue session_id B
        (addToQueue session_id A s))).queues = [C, B, A] := by
    rw [queueItems_addToQueue, queueItems_addToQueue, queueItems_addToQueue, h0]
  have hq' : queueItems session_id
      ((removeFromQueue session_id A
        (addToQueue session_id C (addToQueue session_id B
          (addToQueue session_id A s)))).2).queues = [C, B] := by
    rw [queueItems_removeFromQueue, hq]
    simp [hBA, hCA]
  refine ⟨?_, ?_, ?_, ?_⟩
  · rw [getNextInQueue_eq, hq]
    rfl
  · rw [getQueueLength_eq, hq]
    rfl
  · rw [getNextInQueue_eq, hq']
    rfl
  · rw [getQueueLength_eq, hq']
    rfl

/-- Witness for C8 on a fresh session queue. -/
theorem c8_witness :
    getNextInQueue "s9"
        (addToQueue "s9" "c" (addToQueue "s9" "b" (addToQueue "s9" "a" {})))
      = some "a" ∧
    getQueueLength "s9"
        (addToQueue "s9" "c" (addToQueue "s9" "b" (addToQueue "s9" "a" {})))
      = 3 ∧
    getNextInQueue "s9"
        (removeFromQueue "s9" "a"
          (addToQueue "s9" "c" (addToQueue "s9" "b" (addToQueue "s9" "a" {})))).2
      = some "b" ∧
    getQueueLength "s9"
        (removeFromQueue "s9" "a"
          (addToQueue "s9" "c" (addToQueue "s9" "b" (addToQueue "s9" "a" {})))).2
      = 2 :=
  c8_queue_fifo_peek "s9" "a" "b" "c" {} rfl (by decide) (by decide)

/-- C9: for a pending, fresh record whose suspended arguments carry a
(truthy) user id, a response with no `otp_code` but `confirmed = true`
makes the handler invoke the downstream resume operation with the fixed
dummy one-time-code "000000"; with neither an otp code nor
`confirmed = true`, no resume operation is invoked and the call fails
with the error requiring an OTP code or confirmation. -/
theorem c9_confirmation_only_uses_dummy_otp (elicitation_id : String)
    (u : UserInput) (now : Nat) (mcp : McpReply) (s : Store)
    (stored : StoredElicitation)
    (h1 : assocGet s.elicitations elicitation_id = some stored)
    (h2 : stored.state.status = ElicitationStatus.pending)
    (h3 : ¬ stored.state.expires_at < now)
    (huid : pyTruthyStr stored.state.suspended_tool_arguments.user_id = true) :
    (u.otp_code = none → u.confirmed = some true →
      (handleResponse elicitation_id u now mcp s).1.resume_invocations
        = [{ payment_session_id :=
               stored.state.suspended_tool_arguments.payment_session_id.getD
                 elicitation_id
             otp_code := "000000"
             user_id := stored.state.suspended_tool_arguments.user_id.getD "" }]) ∧
    (pyTruthyStr u.otp_code = false → u.confirmed ≠ some true →
      (handleResponse elicitation_id u now mcp s).1.resume_invocations = [] ∧
      (handleResponse elicitation_id u now mcp s).1.result
        = HrResult.failed (some "OTP code or confirmation is required")) := by
  have hr := handleResponse_resume elicitation_id u now mcp s h1 h2 h3
  have hinv : (handleResponse elicitation_id u now mcp s).1.resume_invocations
      = (callConfirmPayment elicitation_id u
          stored.state.suspended_tool_arguments mcp).invocations := by
    rw [hr]
    cases hcc : (callConfirmPayment elicitation_id u
        stored.state.suspended_tool_arguments mcp).completed <;> simp [hcc]
  constructor
  · intro ho hc
    have hout : (callConfirmPayment elicitation_id u
        stored.state.suspended_tool_arguments mcp).invocations
        = [{ payment_session_id :=
               stored.state.suspended_tool_arguments.payment_session_id.getD
                 elicitation_id
             otp_code := "000000"
             user_id := stored.state.suspended_tool_arguments.user_id.getD "" }] := by
      have hno : pyTruthyStr u.otp_code = false := by rw [ho]; rfl
      unfold callConfirmPayment
      cases mcp <;> simp [huid, hno, hc]
    rw [hinv, hout]
  · intro ho hc
    have hout : callConfirmPayment elicitation_id u
        stored.state.suspended_tool_arguments mcp
        = { completed := false,
            error := some "OTP code or confirmation is required",
            invocations := [] } := by
      unfold callConfirmPayment
      simp [huid, ho, hc]
    rw [hr]
    simp [hout]

/-- Witness for C9: the "e1" record answered with a bare confirmation and
with an empty input. -/
theorem c9_witness :
    (handleResponse "e1" { confirmed := some true } 10 McpReply.okParsed
        sampleStore).1.resume_invocations
      = [{ payment_session_id := "ps1", otp_code := "000000", user_id := "u1" }] ∧
    (handleResponse "e1" {} 10 McpReply.okParsed sampleStore).1.resume_invocations
      = [] ∧
    (handleResponse "e1" {} 10 McpReply.okParsed sampleStore).1.result
      = HrResult.failed (some "OTP code or confirmation is required") := by
  have ha := (c9_confirmation_only_uses_dummy_otp "e1" { confirmed := some true }
    10 McpReply.okParsed sampleStore { state := sampleState, ttl_seconds := 360 }
    rfl rfl (by decide) rfl).1 rfl rfl
  have hb := (c9_confirmation_only_uses_dummy_otp "e1" {} 10 McpReply.okParsed
    sampleStore { state := sampleState, ttl_seconds := 360 }
    rfl rfl (by decide) rfl).2 rfl (by decide)
  exact ⟨ha.trans (by rfl), hb.1, hb.2⟩

/-- C10: `create_elicitation` treats a falsy timeout argument (absent or
zero) as the 300-second manager default, so the record is not created
already expired: `expires_at = created_at + 300`, and the stored entry's
TTL is 360 seconds (timeout + 60s buffer). -/
theorem c10_falsy_timeout_uses_default (tool_call_id mcp_endpoint user_id
    session_id room_name : String) (schema : ElicitationSchema)
    (args : SuspendedArgs) (now : Nat) (s : Store) :
    ((createElicitation tool_call_id mcp_endpoint user_id session_id room_name
        schema args none now s).1.created_at = now ∧
     (createElicitation tool_call_id mcp_endpoint user_id session_id room_name
        schema args none now s).1.expires_at = now + 300 ∧
     assocGet ((createElicitation tool_call_id mcp_endpoint user_id session_id
        room_name schema args none now s).2).elicitations schema.elicitation_id
       = some { state := (createElicitation tool_call_id mcp_endpoint user_id
                  session_id room_name schema args none now s).1
                ttl_seconds := 360 }) ∧
    ((createElicitation tool_call_id mcp_endpoint user_id session_id room_name
        schema args (some 0) now s).1.created_at = now ∧
     (createElicitation tool_call_id mcp_endpoint user_id session_id room_name
        schema args (some 0) now s).1.expires_at = now + 300 ∧
     assocGet ((createElicitation tool_call_id mcp_endpoint user_id session_id
        room_name schema args (some 0) now s).2).elicitations schema.elicitation_id
       = some { state := (createElicitation tool_call_id mcp_endpoint user_id
                  session_id room_name schema args (some 0) now s).1
                ttl_seconds := 360 }) := by
  refine ⟨⟨rfl, rfl, ?_⟩, ⟨rfl, rfl, ?_⟩⟩
  · rw [createElicitation_elicitations]
    exact assocGet_assocSet_self _ _ _
  · rw [createElicitation_elicitations]
    exact assocGet_assocSet_self _ _ _

end Elicitation
